import Mathlib

/-!
Verification of the `blog_api` Flask application (`app/routes.py`) against its
natural-language specification.

The request handlers of `app/routes.py` are embedded shallowly: the relational
store becomes a `Store` of three lists, each handler becomes a pure function
from the store (and the already-authenticated caller identity, the decoded JSON
body, and the clock) to an `HResult` and, for mutating handlers, a new store.
Uncaught Python exceptions (`KeyError` from `data['field']`, `AttributeError`
from dereferencing `None`) are modelled by `HResult.error`, which Flask turns
into a 500 response; `get_or_404` aborting is `HResult.notFound` (a 404
response).  A handler that raises before `db.session.commit()` leaves the
store unchanged (the uncommitted session is discarded at request teardown).
-/

namespace BlogApi

/-- Modelled from the spec: the `User` entity of `app/models.py` (the models
module is not part of the provided sources); fields per spec §3: id, username,
email, password_hash, created_at.  Timestamps are abstracted as naturals. -/
structure User where
  id : Nat
  username : String
  email : String
  password_hash : String
  created_at : Nat
deriving DecidableEq, Repr

/-- Modelled from the spec: the `BlogPost` entity of `app/models.py`;
fields per spec §3: id, title, content, author_id, created_at. -/
structure BlogPost where
  id : Nat
  title : String
  content : String
  author_id : Nat
  created_at : Nat
deriving DecidableEq, Repr

/-- Modelled from the spec: the `Comment` entity of `app/models.py`;
fields per spec §3: id, content, author_id, post_id, created_at. -/
structure Comment where
  id : Nat
  content : String
  author_id : Nat
  post_id : Nat
  created_at : Nat
deriving DecidableEq, Repr

/-- The persistent store: the three tables of the relational database.
Modelled from the spec (§6): "three tables/collections (users, blog_posts,
comments) ... no other persisted state".  Deleting a post does not touch the
comments table (spec §3: "No cascade-delete is performed"). -/
structure Store where
  users : List User
  posts : List BlogPost
  comments : List Comment
deriving DecidableEq, Repr

/-- Store well-formedness: primary keys are unique (enforced by the database),
and usernames are unique (spec §3: `username: string, unique, required`). -/
def Store.wf (s : Store) : Prop :=
  s.users.Pairwise (fun a b => a.id ≠ b.id ∧ a.username ≠ b.username) ∧
  s.posts.Pairwise (fun a b => a.id ≠ b.id) ∧
  s.comments.Pairwise (fun a b => a.id ≠ b.id)

instance (s : Store) : Decidable s.wf := by
  unfold Store.wf; infer_instance

/-- A JWT access token as issued by `create_access_token`: the signed payload
carries the identity as subject and the expiry instant.  Signing itself is
abstracted away; the token is treated as an opaque signed value. -/
structure AccessToken where
  subject : Nat
  issuedAt : Nat
  expiresAt : Nat
deriving DecidableEq, Repr

/-- `datetime.timedelta(days=d)` in seconds. -/
def timedelta_days (d : Nat) : Nat := d * 86400

/-- `flask_jwt_extended.create_access_token(identity=uid, expires_delta=delta)`
issued at instant `now`: subject `uid`, expiry `now + delta`. -/
def create_access_token (identity : Nat) (now : Nat) (expiresDelta : Nat) :
    AccessToken :=
  { subject := identity, issuedAt := now, expiresAt := now + expiresDelta }

/-- JSON values as produced by `jsonify`; an `AccessToken` appears as the
serialized (signed) token string. -/
inductive Json where
  | str : String → Json
  | num : Nat → Json
  | tok : AccessToken → Json
  | arr : List Json → Json
  | obj : List (String × Json) → Json
deriving Repr

/-- A Python exception escaping a handler. -/
inductive PyErr where
  | keyError (key : String)
  | attributeError
deriving DecidableEq, Repr

/-- The outcome of one request, as seen on the wire:
`resp body status` is a normal `return jsonify(body), status`;
`notFound` is the 404 abort raised by `get_or_404`;
`error e` is an uncaught exception, which Flask reports as a 500 response. -/
inductive HResult where
  | resp (body : Json) (status : Nat)
  | notFound
  | error (e : PyErr)
deriving Repr

/-- The HTTP status code of an outcome. -/
def HResult.status : HResult → Nat
  | .resp _ c => c
  | .notFound => 404
  | .error _ => 500

/-- `{'message': m}`, the body shape of every acknowledgment and error. -/
def msg (m : String) : Json := Json.obj [("message", Json.str m)]

/-- `data[k]` on the decoded JSON body: the value, or `KeyError`. -/
def dictGet (d : List (String × String)) (k : String) : Except PyErr String :=
  match d.lookup k with
  | some v => Except.ok v
  | none => Except.error (PyErr.keyError k)

/-- Autoincrement primary-key assignment for a new post row. -/
def freshPostId (s : Store) : Nat := (s.posts.map (·.id)).foldr max 0 + 1

/-- Autoincrement primary-key assignment for a new comment row. -/
def freshCommentId (s : Store) : Nat := (s.comments.map (·.id)).foldr max 0 + 1

/-- `login` (POST /login, routes.py lines 34-50): looks up the user by
username; on a match with a verifying password returns a fresh 1-day token,
otherwise 401.  `checkHash` stands for `bcrypt.check_password_hash`
(arguments: stored hash, submitted password); `data['password']` is only
evaluated when a user was found, mirroring the short-circuit `if user and
bcrypt.check_password_hash(...)`. -/
def login (checkHash : String → String → Bool) (now : Nat) (s : Store)
    (body : List (String × String)) : HResult :=
  match dictGet body "username" with
  | .error e => .error e
  | .ok username =>
    match s.users.find? (fun u => u.username == username) with
    | some user =>
      match dictGet body "password" with
      | .error e => .error e
      | .ok password =>
        if checkHash user.password_hash password then
          .resp (Json.obj [("access_token",
            Json.tok (create_access_token user.id now (timedelta_days 1)))]) 200
        else
          .resp (msg "Invalid username or password") 401
    | none => .resp (msg "Invalid username or password") 401

/-- `get_user` (GET /user, routes.py lines 53-74): `User.query.get` on the
token identity, then unconditional attribute access — a missing user makes
`user.id` raise `AttributeError` on `None`. -/
def get_user (s : Store) (uid : Nat) : HResult :=
  match s.users.find? (fun u => u.id == uid) with
  | none => .error PyErr.attributeError
  | some user =>
    .resp (Json.obj [("id", Json.num user.id),
                     ("username", Json.str user.username),
                     ("email", Json.str user.email),
                     ("created_at", Json.num user.created_at)]) 200

/-- `create_post` (POST /posts, routes.py lines 80-96): reads
`data['title']` then `data['content']`, persists a new row with
`author_id = get_jwt_identity()`. -/
def create_post (s : Store) (uid : Nat) (body : List (String × String))
    (now : Nat) : HResult × Store :=
  match dictGet body "title" with
  | .error e => (.error e, s)
  | .ok title =>
    match dictGet body "content" with
    | .error e => (.error e, s)
    | .ok content =>
      (.resp (msg "Blog post created successfully!") 201,
       { s with posts := s.posts ++
          [{ id := freshPostId s, title := title, content := content,
             author_id := uid, created_at := now }] })

/-- One rendered post of the `get_all_posts` / `get_post` responses. -/
def postView (p : BlogPost) : Json :=
  Json.obj [("id", Json.num p.id),
            ("title", Json.str p.title),
            ("content", Json.str p.content),
            ("author_id", Json.num p.author_id),
            ("created_at", Json.num p.created_at)]

/-- `get_all_posts` (GET /posts, routes.py lines 99-128). -/
def get_all_posts (s : Store) : HResult :=
  .resp (Json.obj [("posts", Json.arr (s.posts.map postView))]) 200

/-- `get_post` (GET /posts/&lt;id&gt;, routes.py lines 131-152):
`get_or_404` then render. -/
def get_post (s : Store) (post_id : Nat) : HResult :=
  match s.posts.find? (fun p => p.id == post_id) with
  | none => .notFound
  | some p => .resp (postView p) 200

/-- `update_post` (PUT /posts/&lt;id&gt;, routes.py lines 155-173):
`get_or_404`, then overwrite `title` and `content` from the body and commit. -/
def update_post (s : Store) (post_id : Nat) (body : List (String × String)) :
    HResult × Store :=
  match s.posts.find? (fun p => p.id == post_id) with
  | none => (.notFound, s)
  | some _ =>
    match dictGet body "title" with
    | .error e => (.error e, s)
    | .ok title =>
      match dictGet body "content" with
      | .error e => (.error e, s)
      | .ok content =>
        (.resp (msg "Blog post updated successfully!") 200,
         { s with posts := s.posts.map (fun p =>
            if p.id == post_id then { p with title := title, content := content }
            else p) })

/-- `delete_post` (DELETE /posts/&lt;id&gt;, routes.py lines 176-189):
`get_or_404`, then delete the row and commit.  Only the posts table changes;
comments are untouched (no cascade is configured — spec §3). -/
def delete_post (s : Store) (post_id : Nat) : HResult × Store :=
  match s.posts.find? (fun p => p.id == post_id) with
  | none => (.notFound, s)
  | some _ =>
    (.resp (msg "Blog post deleted successfully!") 200,
     { s with posts := s.posts.filter (fun p => ! (p.id == post_id)) })

/-- `add_comment` (POST /posts/&lt;id&gt;/comments, routes.py lines 195-211):
persists a new comment with `post_id` taken from the path, with no check that
such a post exists. -/
def add_comment (s : Store) (uid : Nat) (post_id : Nat)
    (body : List (String × String)) (now : Nat) : HResult × Store :=
  match dictGet body "content" with
  | .error e => (.error e, s)
  | .ok content =>
    (.resp (msg "Comment added successfully!") 201,
     { s with comments := s.comments ++
        [{ id := freshCommentId s, content := content, author_id := uid,
           post_id := post_id, created_at := now }] })

/-- One rendered comment of the `get_comments` response (no `post_id` field). -/
def commentView (c : Comment) : Json :=
  Json.obj [("id", Json.num c.id),
            ("content", Json.str c.content),
            ("author_id", Json.num c.author_id),
            ("created_at", Json.num c.created_at)]

/-- `get_comments` (GET /posts/&lt;id&gt;/comments, routes.py lines 214-241):
`filter_by(post_id=post_id)`, always a 200 with the rendered list. -/
def get_comments (s : Store) (post_id : Nat) : HResult :=
  .resp (Json.obj [("comments",
    Json.arr ((s.comments.filter (fun c => c.post_id == post_id)).map
      commentView))]) 200

/-- `update_comment` (PUT /posts/&lt;pid&gt;/comments/&lt;cid&gt;, routes.py
lines 244-263): looks the comment up by `comment_id` alone via `get_or_404`,
rejects with 400 when its stored `post_id` differs from the path, otherwise
overwrites `content` and commits. -/
def update_comment (s : Store) (post_id : Nat) (comment_id : Nat)
    (body : List (String × String)) : HResult × Store :=
  match s.comments.find? (fun c => c.id == comment_id) with
  | none => (.notFound, s)
  | some c =>
    if c.post_id ≠ post_id then
      (.resp (msg "Comment does not belong to the specified post") 400, s)
    else
      match dictGet body "content" with
      | .error e => (.error e, s)
      | .ok content =>
        (.resp (msg "Comment updated successfully!") 200,
         { s with comments := s.comments.map (fun c2 =>
            if c2.id == comment_id then { c2 with content := content }
            else c2) })

/-- `delete_comment` (DELETE /posts/&lt;pid&gt;/comments/&lt;cid&gt;,
routes.py lines 266-283): same lookup-then-mismatch pattern as
`update_comment`; deletes the row on a match. -/
def delete_comment (s : Store) (post_id : Nat) (comment_id : Nat) :
    HResult × Store :=
  match s.comments.find? (fun c => c.id == comment_id) with
  | none => (.notFound, s)
  | some c =>
    if c.post_id ≠ post_id then
      (.resp (msg "Comment does not belong to the specified post") 400, s)
    else
      (.resp (msg "Comment deleted successfully!") 200,
       { s with comments := s.comments.filter (fun c2 => ! (c2.id == comment_id)) })

/-! ## Helper lemmas -/

/-- In a list whose keys are pairwise distinct, `find?` by the key of a member
returns exactly that member. -/
theorem find?_of_mem_pairwise {α β : Type} [BEq β] [LawfulBEq β] (key : α → β)
    (l : List α) (hl : l.Pairwise (fun a b => key a ≠ key b)) (c : α)
    (hc : c ∈ l) : l.find? (fun x => key x == key c) = some c := by
  induction l with
  | nil => cases hc
  | cons a t ih =>
    rcases List.mem_cons.mp hc with rfl | hmem
    · exact List.find?_cons_of_pos t (by simp)
    · have hp := List.pairwise_cons.mp hl
      have hne : ¬ ((key a == key c) = true) := by
        simp only [beq_iff_eq]
        exact hp.1 c hmem
      rw [List.find?_cons_of_neg t hne]
      exact ih hp.2 hmem

/-- In a list whose keys are pairwise distinct, two members with the same key
are the same element. -/
theorem eq_of_mem_pairwise_key {α β : Type} (key : α → β) (l : List α)
    (hl : l.Pairwise (fun a b => key a ≠ key b)) {u v : α}
    (hu : u ∈ l) (hv : v ∈ l) (hk : key u = key v) : u = v := by
  induction l with
  | nil => cases hu
  | cons a t ih =>
    have hp := List.pairwise_cons.mp hl
    rcases List.mem_cons.mp hu with rfl | hu' <;>
      rcases List.mem_cons.mp hv with rfl | hv'
    · rfl
    · exact absurd hk (hp.1 v hv')
    · exact absurd hk.symm (hp.1 u hu')
    · exact ih hp.2 hu' hv'

/-! ## Concrete data for evaluating the theorems -/

/-- A demonstration user. -/
def user1 : User := { id := 1, username := "alice", email := "alice@example.com",
                      password_hash := "h1", created_at := 10 }

/-- A demonstration post with id 1. -/
def post1 : BlogPost := { id := 1, title := "T1", content := "B1",
                          author_id := 1, created_at := 20 }

/-- A second demonstration post with id 2. -/
def post2 : BlogPost := { id := 2, title := "T2", content := "B2",
                          author_id := 1, created_at := 21 }

/-- A demonstration comment on post 1. -/
def comment1 : Comment := { id := 1, content := "first", author_id := 1,
                            post_id := 1, created_at := 30 }

/-- A demonstration comment on post 2. -/
def comment2 : Comment := { id := 2, content := "second", author_id := 1,
                            post_id := 2, created_at := 31 }

/-- A demonstration store holding one user, two posts and two comments. -/
def demoStore : Store :=
  { users := [user1], posts := [post1, post2], comments := [comment1, comment2] }

/-- The empty store. -/
def emptyStore : Store := { users := [], posts := [], comments := [] }

/-! ## Claim theorems -/

/-- C2 (counterexample): a `create_post` request whose body lacks the `title`
field does not produce a 400 BadRequest: the unhandled `KeyError` yields a
500 response. -/
theorem create_post_missing_title_counterexample :
    (create_post emptyStore 1 [("content", "x")] 0).1
      = HResult.error (PyErr.keyError "title") ∧
    (create_post emptyStore 1 [("content", "x")] 0).1.status = 500 ∧
    ¬ (create_post emptyStore 1 [("content", "x")] 0).1.status = 400 :=
  ⟨rfl, rfl, by decide⟩

/-- C2 (amended): an authenticated `create_post` request whose body is missing
`title` or `content` fails with an uncaught `KeyError`, which surfaces as a
500 server error (not a 400 BadRequest JSON body), and no post is persisted. -/
theorem create_post_missing_field_server_error (s : Store) (uid : Nat)
    (body : List (String × String)) (now : Nat) :
    (body.lookup "title" = none →
      create_post s uid body now = (.error (.keyError "title"), s)) ∧
    (∀ title, body.lookup "title" = some title → body.lookup "content" = none →
      create_post s uid body now = (.error (.keyError "content"), s)) ∧
    ((body.lookup "title" = none ∨ body.lookup "content" = none) →
      (create_post s uid body now).1.status = 500 ∧
      (create_post s uid body now).2 = s) := by
  refine ⟨fun ht => ?_, fun title ht hc => ?_, fun h => ?_⟩
  · simp [create_post, dictGet, ht]
  · simp [create_post, dictGet, ht, hc]
  · rcases h with ht | hc
    · simp [create_post, dictGet, ht, HResult.status]
    · cases htl : body.lookup "title" with
      | none => simp [create_post, dictGet, htl, HResult.status]
      | some t => simp [create_post, dictGet, htl, hc, HResult.status]

/-- C2 (witness): evaluating the amended theorem on a concrete body missing
the `content` field. -/
theorem create_post_missing_field_server_error_witness :
    create_post demoStore 1 [("title", "t")] 5 = (.error (.keyError "content"), demoStore) :=
  (create_post_missing_field_server_error demoStore 1 [("title", "t")] 5).2.1 "t" rfl rfl

/-- C3 (counterexample): a `get_user` request whose valid token subject does
not resolve to a stored user does not produce a 404 NotFound: dereferencing
`None` raises `AttributeError`, which surfaces as a 500 response. -/
theorem get_user_unknown_id_counterexample :
    get_user emptyStore 1 = HResult.error PyErr.attributeError ∧
    (get_user emptyStore 1).status = 500 ∧
    ¬ (get_user emptyStore 1).status = 404 :=
  ⟨rfl, rfl, by decide⟩

/-- C3 (amended): when the token subject resolves to no stored user,
`get_user` fails with an uncaught `AttributeError` (a 500 response, not 404);
when it resolves, the response is exactly the user's id, username, email and
created_at — the password_hash is never serialized. -/
theorem get_user_resolution_spec (s : Store) (uid : Nat) :
    ((∀ u ∈ s.users, u.id ≠ uid) →
      get_user s uid = .error .attributeError ∧ (get_user s uid).status = 500) ∧
    (∀ u ∈ s.users, u.id = uid → s.wf →
      get_user s uid = .resp (Json.obj
        [("id", Json.num u.id), ("username", Json.str u.username),
         ("email", Json.str u.email), ("created_at", Json.num u.created_at)])
        200) := by
  constructor
  · intro h
    have hfind : s.users.find? (fun u => u.id == uid) = none := by
      rw [List.find?_eq_none]
      intro u hu
      simpa using h u hu
    simp [get_user, hfind, HResult.status]
  · intro u hu hid hwf
    subst hid
    have hfind : s.users.find? (fun x => x.id == u.id) = some u :=
      find?_of_mem_pairwise (fun x : User => x.id) s.users
        (hwf.1.imp (fun h => h.1)) u hu
    simp [get_user, hfind]

/-- C3 (witness): evaluating the amended theorem on the demonstration store,
at an unresolvable id and at a resolvable one. -/
theorem get_user_resolution_spec_witness :
    (get_user demoStore 7 = .error .attributeError ∧
      (get_user demoStore 7).status = 500) ∧
    get_user demoStore 1 = .resp (Json.obj
      [("id", Json.num 1), ("username", Json.str "alice"),
       ("email", Json.str "alice@example.com"), ("created_at", Json.num 10)])
      200 :=
  ⟨(get_user_resolution_spec demoStore 7).1 (by decide),
   (get_user_resolution_spec demoStore 1).2 user1 (by decide) rfl (by decide)⟩

/-- C4: `login` answers 401 exactly when the username resolves to no user or
the password fails hash verification against the stored hash; on success it
answers 200 with only a token whose subject is the user's id and whose expiry
is exactly one day (86400 s) after issuance — no user fields are echoed. -/
theorem login_spec (checkHash : String → String → Bool) (now : Nat) (s : Store)
    (hwf : s.wf) (body : List (String × String)) (username password : String)
    (hu : body.lookup "username" = some username)
    (hp : body.lookup "password" = some password) :
    ((login checkHash now s body).status = 401 ↔
      (∀ u ∈ s.users, u.username ≠ username) ∨
      (∃ u ∈ s.users, u.username = username ∧
        checkHash u.password_hash password = false)) ∧
    (∀ u ∈ s.users, u.username = username →
      checkHash u.password_hash password = true →
      login checkHash now s body = .resp (Json.obj [("access_token",
        Json.tok { subject := u.id, issuedAt := now,
                   expiresAt := now + 86400 })]) 200) := by
  have husers : s.users.Pairwise (fun a b => a.username ≠ b.username) :=
    hwf.1.imp (fun h => h.2)
  constructor
  · cases hfind : s.users.find? (fun u => u.username == username) with
    | none =>
      have hlog : login checkHash now s body =
          .resp (msg "Invalid username or password") 401 := by
        simp [login, dictGet, hu, hfind]
      rw [hlog]
      constructor
      · intro _
        refine Or.inl (fun v hv hveq => ?_)
        have := List.find?_eq_none.mp hfind v hv
        simp [hveq] at this
      · intro _
        rfl
    | some u0 =>
      have hu0mem : u0 ∈ s.users := List.mem_of_find?_eq_some hfind
      have hu0name : u0.username = username := by
        have := List.find?_some hfind
        simpa using this
      cases hchk : checkHash u0.password_hash password with
      | true =>
        have hlog : login checkHash now s body = .resp (Json.obj
            [("access_token", Json.tok
              { subject := u0.id, issuedAt := now,
                expiresAt := now + 86400 })]) 200 := by
          simp [login, dictGet, hu, hp, hfind, hchk, create_access_token,
            timedelta_days]
        rw [hlog]
        constructor
        · intro h
          simp [HResult.status] at h
        · rintro (h1 | ⟨v, hv, hvname, hvchk⟩)
          · exact absurd hu0name (h1 u0 hu0mem)
          · have hvu : v = u0 := eq_of_mem_pairwise_key
              (fun x : User => x.username) s.users husers hv hu0mem
              (hvname.trans hu0name.symm)
            rw [hvu, hchk] at hvchk
            exact Bool.noConfusion hvchk
      | false =>
        have hlog : login checkHash now s body =
            .resp (msg "Invalid username or password") 401 := by
          simp [login, dictGet, hu, hp, hfind, hchk]
        rw [hlog]
        constructor
        · intro _
          exact Or.inr ⟨u0, hu0mem, hu0name, hchk⟩
        · intro _
          rfl
  · intro u humem huname hchk2
    subst huname
    have hfind : s.users.find? (fun x => x.username == u.username) = some u :=
      find?_of_mem_pairwise (fun x : User => x.username) s.users husers u humem
    simp [login, dictGet, hu, hp, hfind, hchk2, create_access_token,
      timedelta_days]

/-- C4 (witness): a successful login on the demonstration store issues the
token for user 1 with a one-day expiry. -/
theorem login_spec_witness :
    login (fun _ p => p == "pw") 100 demoStore
        [("username", "alice"), ("password", "pw")] =
      .resp (Json.obj [("access_token",
        Json.tok { subject := 1, issuedAt := 100,
                   expiresAt := 100 + 86400 })]) 200 :=
  (login_spec (fun _ p => p == "pw") 100 demoStore (by decide)
    [("username", "alice"), ("password", "pw")] "alice" "pw" rfl rfl).2
    user1 (by decide) rfl rfl

/-- C10: a login that fails because the username is unknown and a login that
fails because hash verification rejected the password produce identical
responses — the same 401 status and the same message body — so the caller
cannot tell the two causes apart. -/
theorem login_failure_indistinguishable
    (chk1 chk2 : String → String → Bool) (now1 now2 : Nat) (s1 s2 : Store)
    (body1 body2 : List (String × String)) (un1 un2 pw2 : String) (u2 : User)
    (h1u : body1.lookup "username" = some un1)
    (h1f : s1.users.find? (fun u => u.username == un1) = none)
    (h2u : body2.lookup "username" = some un2)
    (h2f : s2.users.find? (fun u => u.username == un2) = some u2)
    (h2p : body2.lookup "password" = some pw2)
    (h2c : chk2 u2.password_hash pw2 = false) :
    login chk1 now1 s1 body1 = login chk2 now2 s2 body2 ∧
    login chk1 now1 s1 body1 =
      .resp (msg "Invalid username or password") 401 := by
  have e1 : login chk1 now1 s1 body1 =
      .resp (msg "Invalid username or password") 401 := by
    simp [login, dictGet, h1u, h1f]
  have e2 : login chk2 now2 s2 body2 =
      .resp (msg "Invalid username or password") 401 := by
    simp [login, dictGet, h2u, h2f, h2p, h2c]
  exact ⟨e1.trans e2.symm, e1⟩

/-- C10 (witness): on the demonstration store, the unknown-username failure
and the wrong-password failure are literally the same response. -/
theorem login_failure_indistinguishable_witness :
    login (fun _ p => p == "pw") 0 demoStore [("username", "bob")] =
      login (fun _ p => p == "pw") 0 demoStore
        [("username", "alice"), ("password", "wrong")] ∧
    login (fun _ p => p == "pw") 0 demoStore [("username", "bob")] =
      .resp (msg "Invalid username or password") 401 :=
  login_failure_indistinguishable (fun _ p => p == "pw") (fun _ p => p == "pw")
    0 0 demoStore demoStore [("username", "bob")]
    [("username", "alice"), ("password", "wrong")] "bob" "alice" "wrong" user1
    rfl rfl rfl rfl rfl rfl

/-- C1: `update_comment` and `delete_comment` answer 404 when no stored
comment has the requested id; when the comment exists but its stored `post_id`
differs from the path's post id they answer 400 and leave the entire store
unchanged; only on a matching `post_id` do they overwrite the content
resp. remove the comment. -/
theorem comment_ops_verify_post_binding (s : Store) (hwf : s.wf)
    (post_id comment_id : Nat) (body : List (String × String)) :
    ((∀ c ∈ s.comments, c.id ≠ comment_id) →
      update_comment s post_id comment_id body = (.notFound, s) ∧
      delete_comment s post_id comment_id = (.notFound, s)) ∧
    (∀ c ∈ s.comments, c.id = comment_id → c.post_id ≠ post_id →
      update_comment s post_id comment_id body =
        (.resp (msg "Comment does not belong to the specified post") 400, s) ∧
      delete_comment s post_id comment_id =
        (.resp (msg "Comment does not belong to the specified post") 400, s)) ∧
    (∀ c ∈ s.comments, c.id = comment_id → c.post_id = post_id →
      (∀ content, body.lookup "content" = some content →
        update_comment s post_id comment_id body =
          (.resp (msg "Comment updated successfully!") 200,
           { s with comments := s.comments.map (fun c2 =>
              if c2.id == comment_id then { c2 with content := content }
              else c2) })) ∧
      delete_comment s post_id comment_id =
        (.resp (msg "Comment deleted successfully!") 200,
         { s with comments := s.comments.filter (fun c2 =>
            ! (c2.id == comment_id)) })) := by
  have hcomm : s.comments.Pairwise (fun a b => a.id ≠ b.id) := hwf.2.2
  refine ⟨fun h => ?_, fun c hc hid hne => ?_, fun c hc hid hpid => ?_⟩
  · have hfind : s.comments.find? (fun c => c.id == comment_id) = none := by
      rw [List.find?_eq_none]
      intro c hc
      simpa using h c hc
    exact ⟨by simp [update_comment, hfind], by simp [delete_comment, hfind]⟩
  · subst hid
    have hfind : s.comments.find? (fun x => x.id == c.id) = some c :=
      find?_of_mem_pairwise (fun x : Comment => x.id) s.comments hcomm c hc
    exact ⟨by simp [update_comment, hfind, hne],
           by simp [delete_comment, hfind, hne]⟩
  · subst hid
    have hfind : s.comments.find? (fun x => x.id == c.id) = some c :=
      find?_of_mem_pairwise (fun x : Comment => x.id) s.comments hcomm c hc
    constructor
    · intro content hcont
      simp [update_comment, hfind, hpid, dictGet, hcont]
    · simp [delete_comment, hfind, hpid]

/-- C1 (witness): on the demonstration store, an unknown comment id gives 404,
a wrong post id gives 400 without change, and the matching path deletes. -/
theorem comment_ops_verify_post_binding_witness :
    update_comment demoStore 9 5 [("content", "zzz")] = (.notFound, demoStore) ∧
    update_comment demoStore 2 1 [("content", "zzz")] =
      (.resp (msg "Comment does not belong to the specified post") 400,
       demoStore) ∧
    delete_comment demoStore 2 1 =
      (.resp (msg "Comment does not belong to the specified post") 400,
       demoStore) ∧
    delete_comment demoStore 1 1 =
      (.resp (msg "Comment deleted successfully!") 200,
       { demoStore with comments := demoStore.comments.filter (fun c2 =>
          ! (c2.id == 1)) }) :=
  ⟨((comment_ops_verify_post_binding demoStore (by decide) 9 5
      [("content", "zzz")]).1 (by decide)).1,
   ((comment_ops_verify_post_binding demoStore (by decide) 2 1
      [("content", "zzz")]).2.1 comment1 (by decide) rfl (by decide)).1,
   ((comment_ops_verify_post_binding demoStore (by decide) 2 1
      [("content", "zzz")]).2.1 comment1 (by decide) rfl (by decide)).2,
   ((comment_ops_verify_post_binding demoStore (by decide) 1 1
      [("content", "zzz")]).2.2 comment1 (by decide) rfl rfl).2⟩

/-- C5: no update operation modifies `id`, `author_id`, `created_at` (and for
comments `post_id`): in every branch of `update_post` and `update_comment`
those fields of every stored row are unchanged, the other two tables are
untouched, and every non-target row is preserved verbatim. -/
theorem update_preserves_immutable_fields (s : Store)
    (post_id comment_id : Nat) (body : List (String × String)) :
    ((update_post s post_id body).2.users = s.users ∧
     (update_post s post_id body).2.comments = s.comments ∧
     (update_post s post_id body).2.posts.map (fun p =>
        (p.id, p.author_id, p.created_at)) =
       s.posts.map (fun p => (p.id, p.author_id, p.created_at)) ∧
     (∀ p ∈ s.posts, p.id ≠ post_id →
        p ∈ (update_post s post_id body).2.posts)) ∧
    ((update_comment s post_id comment_id body).2.users = s.users ∧
     (update_comment s post_id comment_id body).2.posts = s.posts ∧
     (update_comment s post_id comment_id body).2.comments.map (fun c =>
        (c.id, c.author_id, c.post_id, c.created_at)) =
       s.comments.map (fun c => (c.id, c.author_id, c.post_id, c.created_at)) ∧
     (∀ c ∈ s.comments, c.id ≠ comment_id →
        c ∈ (update_comment s post_id comment_id body).2.comments)) := by
  constructor
  · cases hf : s.posts.find? (fun p => p.id == post_id) with
    | none =>
      simp only [update_post, hf]
      exact ⟨trivial, trivial, trivial, fun p hp _ => hp⟩
    | some p0 =>
      cases ht : dictGet body "title" with
      | error e =>
        simp only [update_post, hf, ht]
        exact ⟨trivial, trivial, trivial, fun p hp _ => hp⟩
      | ok title =>
        cases hc : dictGet body "content" with
        | error e =>
          simp only [update_post, hf, ht, hc]
          exact ⟨trivial, trivial, trivial, fun p hp _ => hp⟩
        | ok content =>
          simp only [update_post, hf, ht, hc]
          refine ⟨trivial, trivial, ?_, ?_⟩
          · rw [List.map_map]
            refine List.map_congr_left (fun p _ => ?_)
            cases h : p.id == post_id <;> simp [Function.comp, h]
          · intro p hp hne
            exact List.mem_map.mpr ⟨p, hp, by simp [hne]⟩
  · cases hf : s.comments.find? (fun c => c.id == comment_id) with
    | none =>
      simp only [update_comment, hf]
      exact ⟨trivial, trivial, trivial, fun c hc _ => hc⟩
    | some c0 =>
      by_cases hij : c0.post_id ≠ post_id
      · simp only [update_comment, hf, if_pos hij]
        exact ⟨trivial, trivial, trivial, fun c hc _ => hc⟩
      · cases hcn : dictGet body "content" with
        | error e =>
          simp only [update_comment, hf, if_neg hij, hcn]
          exact ⟨trivial, trivial, trivial, fun c hc _ => hc⟩
        | ok content =>
          simp only [update_comment, hf, if_neg hij, hcn]
          refine ⟨trivial, trivial, ?_, ?_⟩
          · rw [List.map_map]
            refine List.map_congr_left (fun c _ => ?_)
            cases h : c.id == comment_id <;> simp [Function.comp, h]
          · intro c hc hne
            exact List.mem_map.mpr ⟨c, hc, by simp [hne]⟩

/-- C5 (witness): evaluating the preservation theorem on the demonstration
store for an update of post 1 and of comment 1. -/
theorem update_preserves_immutable_fields_witness :
    (update_post demoStore 1 [("title", "X"), ("content", "Y")]).2.posts.map
        (fun p => (p.id, p.author_id, p.created_at)) =
      demoStore.posts.map (fun p => (p.id, p.author_id, p.created_at)) ∧
    (update_comment demoStore 1 1 [("content", "Y")]).2.comments.map
        (fun c => (c.id, c.author_id, c.post_id, c.created_at)) =
      demoStore.comments.map (fun c =>
        (c.id, c.author_id, c.post_id, c.created_at)) ∧
    post2 ∈ (update_post demoStore 1
      [("title", "X"), ("content", "Y")]).2.posts :=
  ⟨(update_preserves_immutable_fields demoStore 1 1
      [("title", "X"), ("content", "Y")]).1.2.2.1,
   (update_preserves_immutable_fields demoStore 1 1
      [("content", "Y")]).2.2.2.1,
   (update_preserves_immutable_fields demoStore 1 1
      [("title", "X"), ("content", "Y")]).1.2.2.2 post2 (by decide) (by decide)⟩

/-- C6: deleting an existing post returns 200; afterwards `get_post` on that
id is 404 and no listed post carries that id, while the comments and users
tables — in particular every comment pointing at the deleted post — are
untouched (no cascade delete). -/
theorem delete_post_spec (s : Store) (_hwf : s.wf) (post_id : Nat)
    (p : BlogPost) (hp : p ∈ s.posts) (hid : p.id = post_id) :
    (delete_post s post_id).1 =
      .resp (msg "Blog post deleted successfully!") 200 ∧
    get_post (delete_post s post_id).2 post_id = .notFound ∧
    get_all_posts (delete_post s post_id).2 = .resp (Json.obj [("posts",
      Json.arr ((delete_post s post_id).2.posts.map postView))]) 200 ∧
    (∀ q ∈ (delete_post s post_id).2.posts, q.id ≠ post_id) ∧
    (delete_post s post_id).2.comments = s.comments ∧
    (delete_post s post_id).2.users = s.users ∧
    (∀ c ∈ s.comments, c.post_id = post_id →
      c ∈ (delete_post s post_id).2.comments) := by
  subst hid
  obtain ⟨q0, hf⟩ : ∃ q0, s.posts.find? (fun q => q.id == p.id) = some q0 :=
    Option.isSome_iff_exists.mp
      (List.find?_isSome.mpr ⟨p, hp, by simp⟩)
  have hfil : ∀ q ∈ s.posts.filter (fun q => ! (q.id == p.id)),
      q.id ≠ p.id := by
    intro q hq
    have := (List.mem_filter.mp hq).2
    simpa using this
  have hnone : (s.posts.filter (fun q => ! (q.id == p.id))).find?
      (fun q => q.id == p.id) = none := by
    rw [List.find?_eq_none]
    intro q hq
    simpa using hfil q hq
  refine ⟨?_, ?_, ?_, ?_, ?_, ?_, ?_⟩
  · simp [delete_post, hf]
  · simp [delete_post, hf, get_post, hnone]
  · simp [delete_post, hf, get_all_posts]
  · intro q hq
    simp only [delete_post, hf] at hq
    exact hfil q hq
  · simp [delete_post, hf]
  · simp [delete_post, hf]
  · intro c hc _
    simp only [delete_post, hf]
    exact hc

/-- C6 (witness): deleting post 1 of the demonstration store succeeds, hides
it from `get_post`, and leaves both comments (including the one on post 1). -/
theorem delete_post_spec_witness :
    (delete_post demoStore 1).1 =
      .resp (msg "Blog post deleted successfully!") 200 ∧
    get_post (delete_post demoStore 1).2 1 = .notFound ∧
    (delete_post demoStore 1).2.comments = demoStore.comments ∧
    comment1 ∈ (delete_post demoStore 1).2.comments :=
  ⟨(delete_post_spec demoStore (by decide) 1 post1 (by decide) rfl).1,
   (delete_post_spec demoStore (by decide) 1 post1 (by decide) rfl).2.1,
   (delete_post_spec demoStore (by decide) 1 post1 (by decide) rfl).2.2.2.2.1,
   (delete_post_spec demoStore (by decide) 1 post1 (by decide) rfl).2.2.2.2.2.2
     comment1 (by decide) rfl⟩

/-- C7: an authenticated `add_comment` with a `content` field always answers
201 and appends exactly one comment carrying the given content, the caller's
id as author and the path's post id — with no hypothesis that any post with
that id exists — leaving posts and users untouched. -/
theorem add_comment_spec (s : Store) (uid post_id : Nat)
    (body : List (String × String)) (content : String) (now : Nat)
    (hc : body.lookup "content" = some content) :
    (add_comment s uid post_id body now).1 =
      .resp (msg "Comment added successfully!") 201 ∧
    (add_comment s uid post_id body now).2.comments =
      s.comments ++ [{ id := freshCommentId s, content := content,
                       author_id := uid, post_id := post_id,
                       created_at := now }] ∧
    (add_comment s uid post_id body now).2.posts = s.posts ∧
    (add_comment s uid post_id body now).2.users = s.users := by
  simp [add_comment, dictGet, hc]

/-- C7 (witness): adding a comment for post id 5 — which does not exist in the
demonstration store — still succeeds and persists the comment as given. -/
theorem add_comment_spec_witness :
    (¬ ∃ p ∈ demoStore.posts, p.id = 5) ∧
    (add_comment demoStore 1 5 [("content", "hi")] 40).1 =
      .resp (msg "Comment added successfully!") 201 ∧
    (add_comment demoStore 1 5 [("content", "hi")] 40).2.comments =
      demoStore.comments ++ [{ id := 3, content := "hi", author_id := 1,
                               post_id := 5, created_at := 40 }] :=
  ⟨by decide,
   (add_comment_spec demoStore 1 5 [("content", "hi")] "hi" 40 rfl).1,
   (add_comment_spec demoStore 1 5 [("content", "hi")] "hi" 40 rfl).2.1⟩

/-- C8: `get_comments` always answers 200 (never 404) with a list that renders
exactly the stored comments whose `post_id` equals the path's post id; when
there is no such comment — in particular when no such post exists — the list
is empty. -/
theorem get_comments_spec (s : Store) (post_id : Nat) :
    (get_comments s post_id).status = 200 ∧
    get_comments s post_id ≠ .notFound ∧
    ∃ l, get_comments s post_id =
        .resp (Json.obj [("comments", Json.arr l)]) 200 ∧
      (∀ c ∈ s.comments, c.post_id = post_id → commentView c ∈ l) ∧
      (∀ j ∈ l, ∃ c ∈ s.comments, c.post_id = post_id ∧ j = commentView c) ∧
      ((∀ c ∈ s.comments, c.post_id ≠ post_id) → l = []) := by
  refine ⟨rfl, by simp [get_comments], ⟨_, rfl, ?_, ?_, ?_⟩⟩
  · intro c hc hcp
    exact List.mem_map.mpr ⟨c, List.mem_filter.mpr ⟨hc, by simp [hcp]⟩, rfl⟩
  · intro j hj
    obtain ⟨c, hcf, rfl⟩ := List.mem_map.mp hj
    obtain ⟨hcm, hcp⟩ := List.mem_filter.mp hcf
    exact ⟨c, hcm, by simpa using hcp, rfl⟩
  · intro h
    have hfil : s.comments.filter (fun c => c.post_id == post_id) = [] := by
      rw [List.filter_eq_nil_iff]
      intro c hc
      simpa using h c hc
    rw [hfil]
    rfl

/-- C8 (witness): on the demonstration store, listing comments of post 1 is a
200 and listing comments of the absent post 7 is a 200 as well, never 404. -/
theorem get_comments_spec_witness :
    (get_comments demoStore 1).status = 200 ∧
    (get_comments demoStore 7).status = 200 ∧
    get_comments demoStore 7 ≠ .notFound :=
  ⟨(get_comments_spec demoStore 1).1,
   (get_comments_spec demoStore 7).1,
   (get_comments_spec demoStore 7).2.1⟩

/-- A store is determined by its three tables. -/
theorem Store.eq_of_fields {a b : Store} (hu : a.users = b.users)
    (hp : a.posts = b.posts) (hc : a.comments = b.comments) : a = b := by
  cases a
  cases b
  simp_all

/-- On a successful lookup and a body carrying both fields, `update_post`
acknowledges with 200 and rewrites exactly the matching row's title and
content, leaving the other tables alone. -/
theorem update_post_success (s : Store) (post_id : Nat)
    (body : List (String × String)) (title content : String) (q0 : BlogPost)
    (hf : s.posts.find? (fun q => q.id == post_id) = some q0)
    (ht : body.lookup "title" = some title)
    (hc : body.lookup "content" = some content) :
    (update_post s post_id body).1 =
      .resp (msg "Blog post updated successfully!") 200 ∧
    (update_post s post_id body).2.users = s.users ∧
    (update_post s post_id body).2.comments = s.comments ∧
    (update_post s post_id body).2.posts = s.posts.map (fun q =>
      if q.id == post_id then { q with title := title, content := content }
      else q) := by
  simp [update_post, hf, dictGet, ht, hc]

/-- C9: on an existing post, `update_post` answers 200 and fully replaces the
stored title and content with exactly the payload's values (all other fields
kept), and running the same update a second time leaves the store exactly as
after the first run. -/
theorem update_post_replacement_idempotent (s : Store) (post_id : Nat)
    (body : List (String × String)) (title content : String)
    (ht : body.lookup "title" = some title)
    (hc : body.lookup "content" = some content)
    (p : BlogPost) (hp : s.posts.find? (fun q => q.id == post_id) = some p) :
    (update_post s post_id body).1 =
      .resp (msg "Blog post updated successfully!") 200 ∧
    (∃ p', (update_post s post_id body).2.posts.find?
        (fun q => q.id == post_id) = some p' ∧
      p'.title = title ∧ p'.content = content ∧ p'.id = p.id ∧
      p'.author_id = p.author_id ∧ p'.created_at = p.created_at) ∧
    (update_post (update_post s post_id body).2 post_id body).2 =
      (update_post s post_id body).2 := by
  have hpe : p.id = post_id := by
    have := List.find?_some hp
    simpa using this
  obtain ⟨hresp, hu1, hc1, hp1⟩ :=
    update_post_success s post_id body title content p hp ht hc
  have hpr : ((fun q : BlogPost => q.id == post_id) ∘ (fun q =>
      if q.id == post_id then { q with title := title, content := content }
      else q)) = (fun q : BlogPost => q.id == post_id) := by
    funext q
    cases h : q.id == post_id <;> simp [Function.comp, h]
  have hfind1 : (update_post s post_id body).2.posts.find?
      (fun q => q.id == post_id) =
      some { p with title := title, content := content } := by
    rw [hp1, List.find?_map, hpr, hp]
    simp [hpe]
  obtain ⟨hresp2, hu2, hc2, hp2⟩ := update_post_success
    (update_post s post_id body).2 post_id body title content _ hfind1 ht hc
  refine ⟨hresp, ⟨{ p with title := title, content := content },
    hfind1, rfl, rfl, rfl, rfl, rfl⟩, ?_⟩
  have hidem : (update_post s post_id body).2.posts.map (fun q =>
      if q.id == post_id then { q with title := title, content := content }
      else q) = (update_post s post_id body).2.posts := by
    rw [hp1, List.map_map]
    refine List.map_congr_left (fun q _ => ?_)
    cases h : q.id == post_id <;> simp [Function.comp, h]
  exact Store.eq_of_fields hu2 (hp2.trans hidem) hc2

/-- C9 (witness): updating post 1 of the demonstration store twice with the
same payload ends in the same store as updating it once. -/
theorem update_post_replacement_idempotent_witness :
    (update_post demoStore 1 [("title", "X"), ("content", "Y")]).1 =
      .resp (msg "Blog post updated successfully!") 200 ∧
    (update_post (update_post demoStore 1
        [("title", "X"), ("content", "Y")]).2 1
      [("title", "X"), ("content", "Y")]).2 =
      (update_post demoStore 1 [("title", "X"), ("content", "Y")]).2 :=
  ⟨(update_post_replacement_idempotent demoStore 1
      [("title", "X"), ("content", "Y")] "X" "Y" rfl rfl post1 rfl).1,
   (update_post_replacement_idempotent demoStore 1
      [("title", "X"), ("content", "Y")] "X" "Y" rfl rfl post1 rfl).2.2⟩

end BlogApi
